import Mathlib

/-!
Verification development for the pinball gameplay engine (src/main.py).

The numeric model: Python floats are embedded as rationals (every constant
appearing in the gameplay logic — times in units of milliseconds/1000,
difficulty parameters, positions — is exactly representable), Python ints as
integers.  Each gameplay function of the source is embedded as a pure state
transformer; the event loop becomes a small-step relation on system states.
-/

set_option autoImplicit false

namespace Pinball

/-- Truncation toward zero, the behaviour of the Python builtin int() on a
numeric value, used by the scoring code. -/
def pyTrunc (q : ℚ) : ℤ := if q < 0 then -⌊-q⌋ else ⌊q⌋

/-- Number of equal physics sub-increments per frame (src/main.py line 91). -/
def PHYSICS_SUBSTEPS : ℕ := 5

/-- Difficulty preset with all tunable physics parameters
(class DifficultyPreset, src/main.py lines 112-138). -/
structure DifficultyPreset where
  name : String
  gravity : ℚ × ℚ
  ball_elasticity : ℚ
  ball_friction : ℚ
  flipper_elasticity : ℚ
  flipper_impulse : ℚ
  flipper_spring_stiffness : ℚ
  flipper_spring_damping : ℚ
  flipper_rest_angle : ℚ
  bumper_elasticity : ℚ
  bumper_impulse : ℚ
  plunger_max_power : ℚ
  plunger_charge_rate : ℚ
  starting_balls : ℤ
  ball_saver_duration : ℚ
  score_multiplier : ℚ
deriving Repr, DecidableEq

/-- The EASY preset (src/main.py lines 142-159). -/
def DIFFICULTY_EASY : DifficultyPreset where
  name := "EASY"
  gravity := (0, 3200)
  ball_elasticity := 0.8
  ball_friction := 0.2
  flipper_elasticity := 0.95
  flipper_impulse := 100000
  flipper_spring_stiffness := 20000000
  flipper_spring_damping := 800000
  flipper_rest_angle := 0.22
  bumper_elasticity := 1.8
  bumper_impulse := 600
  plunger_max_power := 2800
  plunger_charge_rate := 4000
  starting_balls := 5
  ball_saver_duration := 8.0
  score_multiplier := 0.8

/-- The NORMAL preset (src/main.py lines 161-178). -/
def DIFFICULTY_NORMAL : DifficultyPreset where
  name := "NORMAL"
  gravity := (0, 4000)
  ball_elasticity := 0.7
  ball_friction := 0.3
  flipper_elasticity := 0.85
  flipper_impulse := 90000
  flipper_spring_stiffness := 25000000
  flipper_spring_damping := 1000000
  flipper_rest_angle := 0.18
  bumper_elasticity := 1.5
  bumper_impulse := 500
  plunger_max_power := 2500
  plunger_charge_rate := 5000
  starting_balls := 3
  ball_saver_duration := 5.0
  score_multiplier := 1.0

/-- The HARD preset (src/main.py lines 180-197). -/
def DIFFICULTY_HARD : DifficultyPreset where
  name := "HARD"
  gravity := (0, 5600)
  ball_elasticity := 0.6
  ball_friction := 0.4
  flipper_elasticity := 0.75
  flipper_impulse := 80000
  flipper_spring_stiffness := 30000000
  flipper_spring_damping := 1200000
  flipper_rest_angle := 0.15
  bumper_elasticity := 1.3
  bumper_impulse := 400
  plunger_max_power := 2200
  plunger_charge_rate := 6000
  starting_balls := 3
  ball_saver_duration := 3.0
  score_multiplier := 1.5

/-- The preset list (src/main.py line 199). -/
def DIFFICULTY_PRESETS : List DifficultyPreset :=
  [DIFFICULTY_EASY, DIFFICULTY_NORMAL, DIFFICULTY_HARD]

/-- Preset at a difficulty index (DifficultyManager.current, src/main.py
lines 209-211; the index is always kept inside the list bounds, so the
default is never reached). -/
def presetAt (i : ℕ) : DifficultyPreset := DIFFICULTY_PRESETS.getD i DIFFICULTY_NORMAL

/-- DifficultyManager.cycle_difficulty index arithmetic (src/main.py line 215). -/
def cycleIndex (i : ℕ) : ℕ := (i + 1) % DIFFICULTY_PRESETS.length

/-- Mutable per-game record (class GameState, src/main.py lines 241-259). -/
structure GameState where
  difficulty : DifficultyPreset
  score : ℤ
  balls_remaining : ℤ
  ball_in_play : Bool
  game_over : Bool
  ball_saver_active : Bool
  ball_saver_timer : ℚ
  plunger_power : ℚ
  plunger_charging : Bool
  plunger_direction : ℤ
  combo_multiplier : ℤ
  last_hit_time : ℚ
  asking_for_name : Bool
  player_name : String
  name_submitted : Bool
deriving Repr, DecidableEq

/-- GameState.__init__ with an explicit difficulty (src/main.py lines 242-259). -/
def GameState.init (difficulty : DifficultyPreset) : GameState where
  difficulty := difficulty
  score := 0
  balls_remaining := difficulty.starting_balls
  ball_in_play := false
  game_over := false
  ball_saver_active := false
  ball_saver_timer := 0
  plunger_power := 0
  plunger_charging := false
  plunger_direction := 1
  combo_multiplier := 1
  last_hit_time := 0
  asking_for_name := false
  player_name := ""
  name_submitted := false

/-- GameState.reset (src/main.py lines 261-264): re-run the constructor with
the given difficulty, defaulting to the one already stored. -/
def GameState.reset (gs : GameState) (difficulty : Option DifficultyPreset) : GameState :=
  GameState.init (difficulty.getD gs.difficulty)

/-- A ball body: position and velocity (the fields of the pymunk body that
the gameplay logic reads and writes). -/
structure Ball where
  pos : ℚ × ℚ
  vel : ℚ × ℚ
deriving Repr, DecidableEq

/-- The gameplay-relevant state owned by PinballTable: the game state, the
live balls (in creation order, as in the self.balls list) and the plunger
body (src/main.py lines 309-332 and 462-477). -/
structure TableState where
  gs : GameState
  balls : List Ball
  plunger_pos : ℚ × ℚ
  plunger_vel : ℚ × ℚ
deriving Repr, DecidableEq

/-- PinballTable.create_ball (src/main.py lines 665-684): spawn one ball at
the given position (default plunger lane (535, 710)), mark the ball in play
and restart the ball-saver window. -/
def create_ball (d : DifficultyPreset) (st : TableState) (position : Option (ℚ × ℚ)) :
    TableState :=
  let pos := position.getD (535, 710)
  { st with
    balls := st.balls ++ [{ pos := pos, vel := (0, 0) }]
    gs := { st.gs with
            ball_in_play := true
            ball_saver_active := true
            ball_saver_timer := d.ball_saver_duration } }

/-- PinballTable.is_ball_in_plunger_lane (src/main.py lines 696-698). -/
def is_ball_in_plunger_lane (b : Ball) : Bool :=
  decide (505 < b.pos.1) && decide (b.pos.1 < 565) && decide (600 < b.pos.2)

/-- PinballTable.launch_ball (src/main.py lines 686-694): when there is a
live ball, the power is positive and the most recent ball is in the plunger
lane, set the plunger body velocity and the velocity of that ball to
(0, -power * 2); otherwise do nothing. -/
def launch_ball (power : ℚ) (st : TableState) : TableState :=
  match st.balls.getLast? with
  | none => st
  | some ball =>
    if 0 < power ∧ is_ball_in_plunger_lane ball = true then
      { st with
        plunger_vel := (0, -power * 2)
        balls := st.balls.dropLast ++ [{ ball with vel := (0, -power * 2) }] }
    else st

/-- PinballTable._on_bumper_hit, game-state part (src/main.py lines 610-624):
combo window, combo cap, last-hit timestamp and score increment. -/
def on_bumper_hit (d : DifficultyPreset) (current_time : ℚ) (gs : GameState) : GameState :=
  let combo := if current_time - gs.last_hit_time < 2 then
                 min (gs.combo_multiplier + 1) 5
               else 1
  let base_score := pyTrunc (100 * d.score_multiplier)
  { gs with
    combo_multiplier := combo
    last_hit_time := current_time
    score := gs.score + base_score * combo }

/-- PinballTable._on_target_hit, game-state part (src/main.py lines 638-643). -/
def on_target_hit (d : DifficultyPreset) (gs : GameState) : GameState :=
  let base_score := pyTrunc (500 * d.score_multiplier)
  { gs with score := gs.score + base_score * gs.combo_multiplier }

/-- PinballTable._on_drain on a single ball (src/main.py lines 655-663): if
the ball saver is active the ball is teleported back to the launch point with
zero velocity, else it is teleported off-table (velocity untouched). -/
def on_drain_ball (gs : GameState) (b : Ball) : Ball :=
  if gs.ball_saver_active = true then { b with pos := (535, 710), vel := (0, 0) }
  else { b with pos := (-100, -100) }

/-- PinballTable._on_drain applied to the ball at index i of the live list. -/
def on_drain (st : TableState) (i : ℕ) : TableState :=
  match st.balls.get? i with
  | none => st
  | some b => { st with balls := st.balls.set i (on_drain_ball st.gs b) }

/-- The off-table test of PinballTable.update (src/main.py line 740). -/
def off_table (b : Ball) : Bool := decide (800 < b.pos.2) || decide (b.pos.1 < -50)

/-- Ball-saver countdown of PinballTable.update (src/main.py lines 732-735). -/
def saver_tick (dt : ℚ) (gs : GameState) : GameState :=
  if gs.ball_saver_active = true then
    if gs.ball_saver_timer - dt ≤ 0 then
      { gs with ball_saver_timer := gs.ball_saver_timer - dt, ball_saver_active := false }
    else { gs with ball_saver_timer := gs.ball_saver_timer - dt }
  else gs

/-- Per-removed-ball bookkeeping of PinballTable.update (src/main.py lines
743-752): when the saver is inactive, decrement the remaining count, clear
ball_in_play, and set game_over when the count has reached zero. -/
def drain_step (gs : GameState) : GameState :=
  if gs.ball_saver_active = true then gs
  else
    { gs with
      balls_remaining := gs.balls_remaining - 1
      ball_in_play := false
      game_over := if gs.balls_remaining - 1 ≤ 0 then true else gs.game_over }

/-- PinballTable.update (src/main.py lines 715-752): re-pin the plunger when
it has drifted above its rest line, tick the ball-saver window, then remove
every off-table ball and do its drain bookkeeping. -/
def table_update (dt : ℚ) (st : TableState) : TableState :=
  let plunger_pos := if st.plunger_pos.2 < 730 then ((535 : ℚ), (730 : ℚ)) else st.plunger_pos
  let plunger_vel := if st.plunger_pos.2 < 730 then ((0 : ℚ), (0 : ℚ)) else st.plunger_vel
  let gs1 := saver_tick dt st.gs
  let removed := st.balls.filter off_table
  { gs := removed.foldl (fun g _ => drain_step g) gs1
    balls := st.balls.filter (fun b => !(off_table b))
    plunger_pos := plunger_pos
    plunger_vel := plunger_vel }

/-- Plunger charge advance of PinballGame.update (src/main.py lines
1345-1352), run once per frame while the plunger is charging. -/
def plunger_frame (d : DifficultyPreset) (dt : ℚ) (gs : GameState) : GameState :=
  if gs.plunger_charging = true then
    let power := gs.plunger_power + d.plunger_charge_rate * dt * (gs.plunger_direction : ℚ)
    if d.plunger_max_power ≤ power then
      { gs with plunger_power := d.plunger_max_power, plunger_direction := -1 }
    else if power ≤ 0 then
      { gs with plunger_power := 0, plunger_direction := 1 }
    else
      { gs with plunger_power := power }
  else gs

/-- PinballGame._is_any_ball_in_plunger (src/main.py lines 1264-1268). -/
def any_in_plunger (st : TableState) : Bool := st.balls.any is_ball_in_plunger_lane

/-- The SPACE key-down handler (src/main.py lines 1319-1326): spawn a ball
when idle (and not game over), and start charging when a ball sits in the
plunger lane or no ball is in play. -/
def key_space (d : DifficultyPreset) (st : TableState) : TableState :=
  let st1 :=
    if st.gs.game_over = false then
      if st.gs.ball_in_play = false then create_ball d st none
      else if any_in_plunger st = true then
        { st with gs := { st.gs with plunger_charging := true } }
      else st
    else st
  if st1.gs.ball_in_play = false ∨ any_in_plunger st1 = true then
    { st1 with gs := { st1.gs with plunger_charging := true } }
  else st1

/-- The SPACE key-up handler (src/main.py lines 1328-1334): if charging,
launch with the accumulated power, then reset power, charging and direction. -/
def release_plunger (st : TableState) : TableState :=
  if st.gs.plunger_charging = true then
    let st1 := launch_ball st.gs.plunger_power st
    { st1 with
      gs := { st1.gs with plunger_power := 0, plunger_charging := false,
                          plunger_direction := 1 } }
  else st

/-- PinballGame.reset (src/main.py lines 1252-1257): remove all live balls
and re-run the GameState constructor with the current preset. -/
def game_reset (current : DifficultyPreset) (st : TableState) : TableState :=
  { st with balls := [], gs := st.gs.reset (some current) }

/-- A freshly built table for a preset: fresh game state, no balls, plunger
at rest (src/main.py lines 1232-1238 and 462-477). -/
def initTable (d : DifficultyPreset) : TableState :=
  { gs := GameState.init d
    balls := []
    plunger_pos := (535, 730)
    plunger_vel := (0, 0) }

/-- Whole-session state: the difficulty index of the DifficultyManager plus
the table/game state (class PinballGame, src/main.py lines 1217-1238). -/
structure SysState where
  idx : ℕ
  table : TableState
deriving Repr, DecidableEq

/-- The game-state component of a session state. -/
def SysState.gs (s : SysState) : GameState := s.table.gs

/-- The active preset of a session state (DifficultyManager.current). -/
def currentPreset (s : SysState) : DifficultyPreset := presetAt s.idx

/-- The initial session: the manager starts at index 1 (NORMAL, src/main.py
line 207) with a freshly built table. -/
def SysState.start : SysState := { idx := 1, table := initTable (presetAt 1) }

/-- The discrete operations of one session, as dispatched by the event loop
(PinballGame.handle_events / run / update) and by the collision callbacks
fired inside space.step. -/
inductive Event where
  | key_space_down
  | key_space_up
  | key_flip_left
  | key_flip_right
  | key_reset
  | key_cycle
  | frame_charge (dt : ℚ)
  | frame_table (dt : ℚ)
  | physics
  | hit_bumper (t : ℚ) (i : ℕ)
  | hit_target
  | hit_drain (i : ℕ)
deriving Repr, DecidableEq

/-- Small-step relation of the event loop.  Guards come from the source: the
frame body and hence the physics step with its collision callbacks only run
while not game over (src/main.py lines 1370-1371); a ball is only spawned
when none is in play and the game is not over (lines 1319-1322); difficulty
cycling requires no ball in play (lines 1309-1311) and rebuilds the table
with a fresh GameState (lines 1240-1250).  Physics motion of the bodies
between callbacks is nondeterministic (the solver is not modelled): a
physics step may move every ball and the plunger arbitrarily. -/
inductive Step : SysState → Event → SysState → Prop where
  | space_down (s : SysState) :
      Step s Event.key_space_down { s with table := key_space (currentPreset s) s.table }
  | space_up (s : SysState) :
      Step s Event.key_space_up { s with table := release_plunger s.table }
  | flip_left (s : SysState) :
      Step s Event.key_flip_left s
  | flip_right (s : SysState) :
      Step s Event.key_flip_right s
  | reset_key (s : SysState) :
      Step s Event.key_reset { s with table := game_reset (currentPreset s) s.table }
  | cycle (s : SysState) (h : s.gs.ball_in_play = false) :
      Step s Event.key_cycle
        { idx := cycleIndex s.idx, table := initTable (presetAt (cycleIndex s.idx)) }
  | frame_charge (s : SysState) (dt : ℚ) (h : s.gs.game_over = false) :
      Step s (Event.frame_charge dt)
        { s with table :=
            { s.table with gs := plunger_frame (currentPreset s) dt s.table.gs } }
  | frame_table (s : SysState) (dt : ℚ) (h : s.gs.game_over = false) :
      Step s (Event.frame_table dt) { s with table := table_update dt s.table }
  | physics (s : SysState) (f : Ball → Ball) (ppos pvel : ℚ × ℚ)
      (h : s.gs.game_over = false) :
      Step s Event.physics
        { s with table :=
            { s.table with balls := s.table.balls.map f,
                           plunger_pos := ppos, plunger_vel := pvel } }
  | hit_bumper (s : SysState) (t : ℚ) (i : ℕ) (v : ℚ × ℚ) (b : Ball)
      (hb : s.table.balls.get? i = some b) (h : s.gs.game_over = false) :
      Step s (Event.hit_bumper t i)
        { s with table :=
            { s.table with gs := on_bumper_hit (currentPreset s) t s.table.gs,
                           balls := s.table.balls.set i { b with vel := v } } }
  | hit_target (s : SysState) (h : s.gs.game_over = false) :
      Step s Event.hit_target
        { s with table := { s.table with gs := on_target_hit (currentPreset s) s.table.gs } }
  | hit_drain (s : SysState) (i : ℕ) (h : s.gs.game_over = false) :
      Step s (Event.hit_drain i) { s with table := on_drain s.table i }

/-- Reachable session states: the initial state and everything a sequence of
steps can produce. -/
inductive Reach : SysState → Prop where
  | start : Reach SysState.start
  | step (s : SysState) (e : Event) (t : SysState) : Reach s → Step s e t → Reach t

/-! ### Frame-ordering model (for the temporal claim)

The order of operations of one frame, read directly off the statement order
of the source: PinballGame.run (src/main.py lines 1364-1375) does
handle_events (input and actuator commands), then PinballGame.update, then
rendering; PinballGame.update (lines 1343-1358) advances the plunger charge,
then calls self.table.update(dt), then runs the PHYSICS_SUBSTEPS world
sub-steps. -/

/-- A phase of one frame. -/
inductive Phase where
  | input
  | actuator_charge
  | table_lifecycle
  | substep (k : ℕ)
  | render
deriving Repr, DecidableEq

/-- Statement order inside PinballGame.update (src/main.py lines 1343-1358):
plunger-charge advance, then table.update, then the physics sub-steps. -/
def game_update_phases : List Phase :=
  [Phase.actuator_charge, Phase.table_lifecycle] ++
    (List.range PHYSICS_SUBSTEPS).map Phase.substep

/-- Statement order of one frame of PinballGame.run (src/main.py lines
1364-1375). -/
def frame_phases : List Phase := [Phase.input] ++ game_update_phases ++ [Phase.render]

/-- The phase at position i of the frame. -/
def phase_at (i : ℕ) : Phase := frame_phases.getD i Phase.render

/-- Whether a phase is a physics sub-step. -/
def is_substep : Phase → Bool
  | Phase.substep _ => true
  | _ => false

/-- The sub-increments a frame delta is stepped in (src/main.py lines
1356-1358): PHYSICS_SUBSTEPS equal slices of dt / PHYSICS_SUBSTEPS. -/
def substep_dts (dt : ℚ) : List ℚ :=
  List.replicate PHYSICS_SUBSTEPS (dt / (PHYSICS_SUBSTEPS : ℚ))

/-! ### Impulse direction model (real plane)

The bumper callback computes (ball.position - bumper.position).normalized()
and applies that direction scaled by the preset bumper impulse (src/main.py
lines 626-629).  The pymunk Vec2d.normalized returns the zero vector when the
length is zero, else the vector divided by its length. -/

/-- Euclidean length of a plane vector. -/
noncomputable def vec_length (v : ℝ × ℝ) : ℝ := Real.sqrt (v.1 ^ 2 + v.2 ^ 2)

/-- pymunk Vec2d.normalized. -/
noncomputable def normalized (v : ℝ × ℝ) : ℝ × ℝ :=
  if vec_length v = 0 then (0, 0) else (v.1 / vec_length v, v.2 / vec_length v)

/-- The impulse vector applied to the ball by the bumper callback
(src/main.py lines 626-629): the unit vector from the bumper centre to the
ball centre, scaled by the preset bumper impulse. -/
noncomputable def bumper_impulse_vec (imp : ℝ) (ball_pos bumper_pos : ℝ × ℝ) : ℝ × ℝ :=
  let direction := normalized (ball_pos - bumper_pos)
  (direction.1 * imp, direction.2 * imp)

/-! ### Basic facts about the presets and the operations -/

lemma presetAt_cases (i : ℕ) :
    presetAt i = DIFFICULTY_EASY ∨ presetAt i = DIFFICULTY_NORMAL ∨
      presetAt i = DIFFICULTY_HARD := by
  match i with
  | 0 => exact Or.inl rfl
  | 1 => exact Or.inr (Or.inl rfl)
  | 2 => exact Or.inr (Or.inr rfl)
  | (n + 3) => exact Or.inr (Or.inl rfl)

lemma one_le_starting_balls (i : ℕ) : 1 ≤ (presetAt i).starting_balls := by
  rcases presetAt_cases i with h | h | h <;> rw [h] <;> decide

lemma bumper_base_nonneg (i : ℕ) :
    0 ≤ pyTrunc (100 * (presetAt i).score_multiplier) := by
  rcases presetAt_cases i with h | h | h <;> rw [h] <;> norm_num [pyTrunc, DIFFICULTY_EASY, DIFFICULTY_NORMAL, DIFFICULTY_HARD]

lemma target_base_nonneg (i : ℕ) :
    0 ≤ pyTrunc (500 * (presetAt i).score_multiplier) := by
  rcases presetAt_cases i with h | h | h <;> rw [h] <;> norm_num [pyTrunc, DIFFICULTY_EASY, DIFFICULTY_NORMAL, DIFFICULTY_HARD]

lemma saver_tick_combo (dt : ℚ) (gs : GameState) :
    (saver_tick dt gs).combo_multiplier = gs.combo_multiplier := by
  unfold saver_tick; split_ifs <;> rfl

lemma saver_tick_score (dt : ℚ) (gs : GameState) :
    (saver_tick dt gs).score = gs.score := by
  unfold saver_tick; split_ifs <;> rfl

lemma saver_tick_remaining (dt : ℚ) (gs : GameState) :
    (saver_tick dt gs).balls_remaining = gs.balls_remaining := by
  unfold saver_tick; split_ifs <;> rfl

lemma saver_tick_game_over (dt : ℚ) (gs : GameState) :
    (saver_tick dt gs).game_over = gs.game_over := by
  unfold saver_tick; split_ifs <;> rfl

lemma saver_tick_in_play (dt : ℚ) (gs : GameState) :
    (saver_tick dt gs).ball_in_play = gs.ball_in_play := by
  unfold saver_tick; split_ifs <;> rfl

lemma saver_tick_of_inactive (dt : ℚ) (gs : GameState)
    (h : gs.ball_saver_active = false) : saver_tick dt gs = gs := by
  unfold saver_tick; rw [h]; simp

lemma drain_step_combo (gs : GameState) :
    (drain_step gs).combo_multiplier = gs.combo_multiplier := by
  unfold drain_step; split_ifs <;> rfl

lemma drain_step_score (gs : GameState) : (drain_step gs).score = gs.score := by
  unfold drain_step; split_ifs <;> rfl

lemma drain_step_saver (gs : GameState) :
    (drain_step gs).ball_saver_active = gs.ball_saver_active := by
  unfold drain_step; split_ifs <;> rfl

lemma drain_step_of_saver (gs : GameState) (h : gs.ball_saver_active = true) :
    drain_step gs = gs := by
  unfold drain_step; rw [h]; simp

lemma drain_step_of_no_saver (gs : GameState) (h : gs.ball_saver_active = false) :
    drain_step gs =
      { gs with
        balls_remaining := gs.balls_remaining - 1
        ball_in_play := false
        game_over := if gs.balls_remaining - 1 ≤ 0 then true else gs.game_over } := by
  unfold drain_step; rw [h]; simp

lemma launch_ball_gs (power : ℚ) (st : TableState) :
    (launch_ball power st).gs = st.gs := by
  unfold launch_ball
  cases st.balls.getLast? with
  | none => rfl
  | some b => dsimp only; split_ifs <;> rfl

lemma launch_ball_length (power : ℚ) (st : TableState) :
    (launch_ball power st).balls.length = st.balls.length := by
  unfold launch_ball
  cases h : st.balls.getLast? with
  | none => rfl
  | some b =>
    dsimp only
    split_ifs with hc
    · have hne : st.balls ≠ [] := by
        intro he; rw [he] at h; simp at h
      have hpos : 0 < st.balls.length := List.length_pos.mpr hne
      simp only [List.length_append, List.length_dropLast, List.length_singleton]
      omega
    · rfl

lemma launch_ball_of_empty (power : ℚ) (st : TableState) (h : st.balls = []) :
    launch_ball power st = st := by
  unfold launch_ball; rw [h]; rfl

lemma on_drain_gs (st : TableState) (i : ℕ) : (on_drain st i).gs = st.gs := by
  unfold on_drain
  cases st.balls.get? i with
  | none => rfl
  | some b => rfl

lemma on_drain_length (st : TableState) (i : ℕ) :
    (on_drain st i).balls.length = st.balls.length := by
  unfold on_drain
  cases st.balls.get? i with
  | none => rfl
  | some b => simp

lemma any_in_plunger_create (d : DifficultyPreset) (st : TableState) :
    any_in_plunger (create_ball d st none) = true := by
  simp [any_in_plunger, create_ball]
  exact Or.inr (by decide)

lemma key_space_spec (d : DifficultyPreset) (st : TableState) :
    ((key_space d st).gs.score = st.gs.score ∧
     (key_space d st).gs.combo_multiplier = st.gs.combo_multiplier ∧
     (key_space d st).gs.balls_remaining = st.gs.balls_remaining ∧
     (key_space d st).gs.game_over = st.gs.game_over ∧
     (key_space d st).gs.last_hit_time = st.gs.last_hit_time) ∧
    (((key_space d st).balls = st.balls ∧
        (key_space d st).gs.ball_in_play = st.gs.ball_in_play) ∨
      (st.gs.game_over = false ∧ st.gs.ball_in_play = false ∧
        (key_space d st).gs.ball_in_play = true ∧
        (key_space d st).balls = st.balls ++ [{ pos := (535, 710), vel := (0, 0) }] ∧
        (key_space d st).gs.ball_saver_active = true ∧
        (key_space d st).gs.ball_saver_timer = d.ball_saver_duration)) := by
  unfold key_space
  cases hgo : st.gs.game_over with
  | false =>
    cases hip : st.gs.ball_in_play with
    | false =>
      simp only [hgo, hip]
      simp [any_in_plunger_create]
      simp [create_ball, hgo, hip]
    | true =>
      cases hany : any_in_plunger st with
      | false => simp [hgo, hip, hany]
      | true => simp [hgo, hip, hany]
  | true =>
    cases hip : st.gs.ball_in_play with
    | false => simp [hgo, hip]
    | true =>
      cases hany : any_in_plunger st with
      | false => simp [hgo, hip, hany]
      | true => simp [hgo, hip, hany]

/-- The state invariant maintained by every reachable session state. -/
def Inv (s : SysState) : Prop :=
  1 ≤ s.gs.combo_multiplier ∧ s.gs.combo_multiplier ≤ 5 ∧
  0 ≤ s.gs.score ∧
  0 ≤ s.gs.balls_remaining ∧
  s.gs.balls_remaining ≤ (currentPreset s).starting_balls ∧
  (s.gs.balls_remaining ≤ 0 → s.gs.game_over = true) ∧
  s.table.balls.length ≤ 1 ∧
  (s.gs.ball_in_play = false → s.table.balls = [])

lemma inv_start : Inv SysState.start := by
  refine ⟨?_, ?_, ?_, ?_, ?_, ?_, ?_, ?_⟩ <;> decide

@[simp] lemma sys_gs_mk (i : ℕ) (tb : TableState) : SysState.gs ⟨i, tb⟩ = tb.gs := rfl

@[simp] lemma currentPreset_mk (i : ℕ) (tb : TableState) :
    currentPreset ⟨i, tb⟩ = presetAt i := rfl

lemma on_bumper_hit_fields (d : DifficultyPreset) (tm : ℚ) (gs : GameState) :
    (on_bumper_hit d tm gs).balls_remaining = gs.balls_remaining ∧
    (on_bumper_hit d tm gs).game_over = gs.game_over ∧
    (on_bumper_hit d tm gs).ball_in_play = gs.ball_in_play ∧
    (on_bumper_hit d tm gs).ball_saver_active = gs.ball_saver_active ∧
    (on_bumper_hit d tm gs).ball_saver_timer = gs.ball_saver_timer := by
  simp [on_bumper_hit]

lemma on_bumper_hit_combo (d : DifficultyPreset) (tm : ℚ) (gs : GameState) :
    (on_bumper_hit d tm gs).combo_multiplier =
      if tm - gs.last_hit_time < 2 then min (gs.combo_multiplier + 1) 5 else 1 := by
  simp [on_bumper_hit]

lemma on_bumper_hit_score (d : DifficultyPreset) (tm : ℚ) (gs : GameState) :
    (on_bumper_hit d tm gs).score =
      gs.score +
        pyTrunc (100 * d.score_multiplier) * (on_bumper_hit d tm gs).combo_multiplier := by
  simp [on_bumper_hit]

lemma on_target_hit_eq (d : DifficultyPreset) (gs : GameState) :
    on_target_hit d gs =
      { gs with
        score := gs.score + pyTrunc (500 * d.score_multiplier) * gs.combo_multiplier } := by
  simp [on_target_hit]

lemma plunger_frame_fields (d : DifficultyPreset) (dt : ℚ) (gs : GameState) :
    (plunger_frame d dt gs).score = gs.score ∧
    (plunger_frame d dt gs).combo_multiplier = gs.combo_multiplier ∧
    (plunger_frame d dt gs).balls_remaining = gs.balls_remaining ∧
    (plunger_frame d dt gs).game_over = gs.game_over ∧
    (plunger_frame d dt gs).ball_in_play = gs.ball_in_play ∧
    (plunger_frame d dt gs).ball_saver_active = gs.ball_saver_active ∧
    (plunger_frame d dt gs).ball_saver_timer = gs.ball_saver_timer ∧
    (plunger_frame d dt gs).last_hit_time = gs.last_hit_time := by
  simp only [plunger_frame]
  split_ifs <;> simp

lemma release_plunger_fields (st : TableState) :
    (release_plunger st).gs.score = st.gs.score ∧
    (release_plunger st).gs.combo_multiplier = st.gs.combo_multiplier ∧
    (release_plunger st).gs.balls_remaining = st.gs.balls_remaining ∧
    (release_plunger st).gs.game_over = st.gs.game_over ∧
    (release_plunger st).gs.ball_in_play = st.gs.ball_in_play ∧
    (release_plunger st).gs.ball_saver_active = st.gs.ball_saver_active ∧
    (release_plunger st).gs.ball_saver_timer = st.gs.ball_saver_timer ∧
    (release_plunger st).gs.last_hit_time = st.gs.last_hit_time := by
  unfold release_plunger
  split_ifs
  · simp [launch_ball_gs]
  · simp

lemma release_plunger_length (st : TableState) :
    (release_plunger st).balls.length = st.balls.length := by
  unfold release_plunger
  split_ifs
  · simp [launch_ball_length]
  · rfl

lemma release_plunger_of_empty (st : TableState) (h : st.balls = []) :
    (release_plunger st).balls = [] := by
  unfold release_plunger
  split_ifs
  · simp [launch_ball_of_empty _ _ h, h]
  · exact h

lemma table_update_spec (dt : ℚ) (st : TableState) (hlen : st.balls.length ≤ 1) :
    ((table_update dt st).gs = saver_tick dt st.gs ∧
       (table_update dt st).balls = st.balls ∧ st.balls.filter off_table = []) ∨
    (∃ x, st.balls = [x] ∧ off_table x = true ∧
       (table_update dt st).gs = drain_step (saver_tick dt st.gs) ∧
       (table_update dt st).balls = []) := by
  rcases hb : st.balls with _ | ⟨x, tl⟩
  · left
    simp [table_update, hb]
  · have htl : tl = [] := by
      rw [hb] at hlen
      simp only [List.length_cons] at hlen
      exact List.length_eq_zero.mp (by omega)
    subst htl
    cases hoff : off_table x
    · left
      simp [table_update, hb, hoff]
    · right
      exact ⟨x, rfl, hoff, by simp [table_update, hb, hoff], by simp [table_update, hb, hoff]⟩

lemma currentPreset_def (s : SysState) : currentPreset s = presetAt s.idx := rfl

lemma inv_init_state (i : ℕ) (tb : TableState)
    (hgs : tb.gs = GameState.init (presetAt i)) (hb : tb.balls = []) : Inv ⟨i, tb⟩ := by
  have hsb := one_le_starting_balls i
  refine ⟨?_, ?_, ?_, ?_, ?_, ?_, ?_, ?_⟩ <;>
    simp only [sys_gs_mk, currentPreset_mk, hgs, hb, GameState.init]
  · exact le_refl _
  · decide
  · exact le_refl _
  · omega
  · exact le_refl _
  · intro hle; omega
  · simp
  · trivial

lemma step_inv {s : SysState} {e : Event} {t : SysState}
    (hs : Step s e t) (hI : Inv s) : Inv t := by
  obtain ⟨h1, h2, h3, h4, h5, h6, h7, h8⟩ := hI
  simp only [SysState.gs, currentPreset_def] at h1 h2 h3 h4 h5 h6 h8 ⊢
  cases hs with
  | space_down =>
    obtain ⟨⟨hsc, hco, hre, hgo, hlh⟩, hballs⟩ := key_space_spec (currentPreset s) s.table
    refine ⟨?_, ?_, ?_, ?_, ?_, ?_, ?_, ?_⟩ <;> simp only [sys_gs_mk, currentPreset_mk]
    · rw [hco]; exact h1
    · rw [hco]; exact h2
    · rw [hsc]; exact h3
    · rw [hre]; exact h4
    · rw [hre]; exact h5
    · rw [hre, hgo]; exact h6
    · rcases hballs with ⟨hb, _⟩ | ⟨_, hkip, _, hb, _⟩
      · rw [hb]; exact h7
      · rw [hb, h8 hkip]; simp
    · rcases hballs with ⟨hb, hip⟩ | ⟨_, _, hip, _, _⟩
      · intro h; rw [hb]; exact h8 (hip.symm.trans h)
      · intro h; exact absurd (hip.symm.trans h) (by simp)
  | space_up =>
    obtain ⟨hsc, hco, hre, hgo, hip, _, _, _⟩ := release_plunger_fields s.table
    refine ⟨?_, ?_, ?_, ?_, ?_, ?_, ?_, ?_⟩ <;> simp only [sys_gs_mk, currentPreset_mk]
    · rw [hco]; exact h1
    · rw [hco]; exact h2
    · rw [hsc]; exact h3
    · rw [hre]; exact h4
    · rw [hre]; exact h5
    · rw [hre, hgo]; exact h6
    · rw [release_plunger_length]; exact h7
    · intro h
      exact release_plunger_of_empty _ (h8 (hip.symm.trans h))
  | flip_left => exact ⟨h1, h2, h3, h4, h5, h6, h7, h8⟩
  | flip_right => exact ⟨h1, h2, h3, h4, h5, h6, h7, h8⟩
  | reset_key =>
    refine inv_init_state s.idx _ ?_ rfl
    simp [game_reset, GameState.reset, currentPreset_def]
  | cycle h =>
    exact inv_init_state _ _ rfl rfl
  | frame_charge dt h =>
    obtain ⟨hsc, hco, hre, hgo, hip, _, _, _⟩ :=
      plunger_frame_fields (currentPreset s) dt s.table.gs
    refine ⟨?_, ?_, ?_, ?_, ?_, ?_, ?_, ?_⟩ <;> simp only [sys_gs_mk, currentPreset_mk]
    · rw [hco]; exact h1
    · rw [hco]; exact h2
    · rw [hsc]; exact h3
    · rw [hre]; exact h4
    · rw [hre]; exact h5
    · rw [hre, hgo]; exact h6
    · exact h7
    · intro hh; exact h8 (hip.symm.trans hh)
  | frame_table dt h =>
    simp only [SysState.gs] at h
    rcases table_update_spec dt s.table h7 with ⟨hgs, hbs, _⟩ | ⟨x, hx, hoff, hgs, hbs⟩
    · refine ⟨?_, ?_, ?_, ?_, ?_, ?_, ?_, ?_⟩ <;> simp only [sys_gs_mk, currentPreset_mk]
      · rw [hgs, saver_tick_combo]; exact h1
      · rw [hgs, saver_tick_combo]; exact h2
      · rw [hgs, saver_tick_score]; exact h3
      · rw [hgs, saver_tick_remaining]; exact h4
      · rw [hgs, saver_tick_remaining]; exact h5
      · rw [hgs, saver_tick_remaining, saver_tick_game_over]; exact h6
      · rw [hbs]; exact h7
      · rw [hgs, saver_tick_in_play, hbs]; exact h8
    · have hrem1 : 1 ≤ s.table.gs.balls_remaining := by
        by_contra hcon
        have hle : s.table.gs.balls_remaining ≤ 0 := by omega
        have hgo := h6 hle
        rw [h] at hgo
        exact Bool.noConfusion hgo
      cases hsav : (saver_tick dt s.table.gs).ball_saver_active with
      | true =>
        have hds : drain_step (saver_tick dt s.table.gs) = saver_tick dt s.table.gs :=
          drain_step_of_saver _ hsav
        refine ⟨?_, ?_, ?_, ?_, ?_, ?_, ?_, ?_⟩ <;> simp only [sys_gs_mk, currentPreset_mk]
        · rw [hgs, hds, saver_tick_combo]; exact h1
        · rw [hgs, hds, saver_tick_combo]; exact h2
        · rw [hgs, hds, saver_tick_score]; exact h3
        · rw [hgs, hds, saver_tick_remaining]; exact h4
        · rw [hgs, hds, saver_tick_remaining]; exact h5
        · rw [hgs, hds, saver_tick_remaining, saver_tick_game_over]; exact h6
        · rw [hbs]; simp
        · intro _; exact hbs
      | false =>
        have hds := drain_step_of_no_saver _ hsav
        refine ⟨?_, ?_, ?_, ?_, ?_, ?_, ?_, ?_⟩ <;> simp only [sys_gs_mk, currentPreset_mk]
        · rw [hgs, hds]
          simp only [saver_tick_combo]
          exact h1
        · rw [hgs, hds]
          simp only [saver_tick_combo]
          exact h2
        · rw [hgs, hds]
          simp only [saver_tick_score]
          exact h3
        · rw [hgs, hds]
          simp only [saver_tick_remaining]
          omega
        · rw [hgs, hds]
          simp only [saver_tick_remaining]
          omega
        · rw [hgs, hds]
          simp only [saver_tick_remaining]
          intro hle
          rw [if_pos hle]
        · rw [hbs]; simp
        · intro _; exact hbs
  | physics f ppos pvel h =>
    refine ⟨h1, h2, h3, h4, h5, h6, ?_, ?_⟩ <;> simp only [sys_gs_mk, currentPreset_mk]
    · simpa using h7
    · intro hh; rw [h8 hh]; simp
  | hit_bumper tm i v b hb h =>
    obtain ⟨hre, hgo, hip, _, _⟩ := on_bumper_hit_fields (presetAt s.idx) tm s.table.gs
    have hcombo := on_bumper_hit_combo (presetAt s.idx) tm s.table.gs
    have hscore := on_bumper_hit_score (presetAt s.idx) tm s.table.gs
    have hc1 : 1 ≤ (on_bumper_hit (presetAt s.idx) tm s.table.gs).combo_multiplier := by
      rw [hcombo]; split_ifs <;> omega
    have hc5 : (on_bumper_hit (presetAt s.idx) tm s.table.gs).combo_multiplier ≤ 5 := by
      rw [hcombo]; split_ifs <;> omega
    refine ⟨?_, ?_, ?_, ?_, ?_, ?_, ?_, ?_⟩ <;>
      simp only [sys_gs_mk, currentPreset_mk, currentPreset_def]
    · exact hc1
    · exact hc5
    · rw [hscore]
      have hbase : 0 ≤ pyTrunc (100 * (presetAt s.idx).score_multiplier) :=
        bumper_base_nonneg s.idx
      have := mul_nonneg hbase (le_trans zero_le_one hc1)
      omega
    · rw [hre]; exact h4
    · rw [hre]; exact h5
    · rw [hre, hgo]; exact h6
    · simpa using h7
    · intro hh
      rw [h8 (hip.symm.trans hh)]
      simp
  | hit_target h =>
    rw [on_target_hit_eq]
    refine ⟨h1, h2, ?_, h4, h5, h6, h7, h8⟩
    simp only [sys_gs_mk, currentPreset_def]
    have hbase : 0 ≤ pyTrunc (500 * (presetAt s.idx).score_multiplier) :=
      target_base_nonneg s.idx
    have := mul_nonneg hbase (le_trans zero_le_one h1)
    omega
  | hit_drain i h =>
    refine ⟨?_, ?_, ?_, ?_, ?_, ?_, ?_, ?_⟩ <;>
      simp only [sys_gs_mk, currentPreset_mk, on_drain_gs]
    · exact h1
    · exact h2
    · exact h3
    · exact h4
    · exact h5
    · exact h6
    · rw [on_drain_length]; exact h7
    · intro hh
      have hb := h8 hh
      have hn : s.table.balls.get? i = none := by rw [hb]; rfl
      simp [on_drain, hn, hb]

lemma reach_inv {s : SysState} (h : Reach s) : Inv s := by
  induction h with
  | start => exact inv_start
  | step s e t hr hs ih => exact step_inv hs ih

/-! ### Ball-saver countdown facts -/

lemma drain_step_timer (gs : GameState) :
    (drain_step gs).ball_saver_timer = gs.ball_saver_timer := by
  unfold drain_step; split_ifs <;> rfl

lemma foldl_drain_saver (l : List Ball) (gs : GameState) :
    (l.foldl (fun g _ => drain_step g) gs).ball_saver_active = gs.ball_saver_active := by
  induction l generalizing gs with
  | nil => rfl
  | cons x tl ih => rw [List.foldl_cons, ih, drain_step_saver]

lemma foldl_drain_timer (l : List Ball) (gs : GameState) :
    (l.foldl (fun g _ => drain_step g) gs).ball_saver_timer = gs.ball_saver_timer := by
  induction l generalizing gs with
  | nil => rfl
  | cons x tl ih => rw [List.foldl_cons, ih, drain_step_timer]

lemma table_update_saver (dt : ℚ) (st : TableState) :
    (table_update dt st).gs.ball_saver_active = (saver_tick dt st.gs).ball_saver_active := by
  simp [table_update, foldl_drain_saver]

lemma table_update_timer (dt : ℚ) (st : TableState) :
    (table_update dt st).gs.ball_saver_timer = (saver_tick dt st.gs).ball_saver_timer := by
  simp [table_update, foldl_drain_timer]

lemma saver_tick_active (dt : ℚ) (gs : GameState) (h : gs.ball_saver_active = true) :
    saver_tick dt gs =
      if gs.ball_saver_timer - dt ≤ 0 then
        { gs with ball_saver_timer := gs.ball_saver_timer - dt, ball_saver_active := false }
      else { gs with ball_saver_timer := gs.ball_saver_timer - dt } := by
  unfold saver_tick; rw [h]; simp

lemma update_keeps_inactive (dt : ℚ) (st : TableState)
    (h : st.gs.ball_saver_active = false) :
    (table_update dt st).gs.ball_saver_active = false := by
  rw [table_update_saver, saver_tick_of_inactive dt _ h]
  exact h

lemma updates_keep_inactive (dts : List ℚ) (st : TableState)
    (h : st.gs.ball_saver_active = false) :
    (dts.foldl (fun acc dt => table_update dt acc) st).gs.ball_saver_active = false := by
  induction dts generalizing st with
  | nil => exact h
  | cons dt tl ih => exact ih _ (update_keeps_inactive dt st h)

lemma updates_saver_window (dts : List ℚ) (st : TableState)
    (h : st.gs.ball_saver_active = true) (hp : 0 < st.gs.ball_saver_timer) :
    (dts.foldl (fun acc dt => table_update dt acc) st).gs.ball_saver_active = false ∨
    ((dts.foldl (fun acc dt => table_update dt acc) st).gs.ball_saver_active = true ∧
      st.gs.ball_saver_timer - dts.sum > 0) := by
  induction dts generalizing st with
  | nil =>
    right
    exact ⟨h, by simpa using hp⟩
  | cons dt tl ih =>
    rw [List.foldl_cons]
    by_cases hc : st.gs.ball_saver_timer - dt ≤ 0
    · left
      apply updates_keep_inactive
      rw [table_update_saver, saver_tick_active dt _ h, if_pos hc]
    · have h1 : (table_update dt st).gs.ball_saver_active = true := by
        rw [table_update_saver, saver_tick_active dt _ h, if_neg hc]
        exact h
      have ht1 : (table_update dt st).gs.ball_saver_timer
          = st.gs.ball_saver_timer - dt := by
        rw [table_update_timer, saver_tick_active dt _ h, if_neg hc]
      rcases ih (table_update dt st) h1 (by rw [ht1]; linarith) with hf | ⟨hf, hgt⟩
      · exact Or.inl hf
      · right
        refine ⟨hf, ?_⟩
        rw [ht1] at hgt
        rw [List.sum_cons]
        linarith

/-! ### Preset numeric facts -/

lemma preset_duration_pos (d : DifficultyPreset) (hd : d ∈ DIFFICULTY_PRESETS) :
    0 < d.ball_saver_duration := by
  simp only [DIFFICULTY_PRESETS, List.mem_cons, List.not_mem_nil, or_false] at hd
  rcases hd with rfl | rfl | rfl <;>
    norm_num [DIFFICULTY_EASY, DIFFICULTY_NORMAL, DIFFICULTY_HARD]

lemma preset_max_power_pos (d : DifficultyPreset) (hd : d ∈ DIFFICULTY_PRESETS) :
    0 < d.plunger_max_power := by
  simp only [DIFFICULTY_PRESETS, List.mem_cons, List.not_mem_nil, or_false] at hd
  rcases hd with rfl | rfl | rfl <;>
    norm_num [DIFFICULTY_EASY, DIFFICULTY_NORMAL, DIFFICULTY_HARD]

lemma preset_bumper_impulse_nonneg (d : DifficultyPreset) (hd : d ∈ DIFFICULTY_PRESETS) :
    (0 : ℚ) ≤ d.bumper_impulse := by
  simp only [DIFFICULTY_PRESETS, List.mem_cons, List.not_mem_nil, or_false] at hd
  rcases hd with rfl | rfl | rfl <;>
    norm_num [DIFFICULTY_EASY, DIFFICULTY_NORMAL, DIFFICULTY_HARD]

lemma preset_score_base_100 (d : DifficultyPreset) (hd : d ∈ DIFFICULTY_PRESETS) :
    (pyTrunc (100 * d.score_multiplier) : ℚ) = 100 * d.score_multiplier := by
  simp only [DIFFICULTY_PRESETS, List.mem_cons, List.not_mem_nil, or_false] at hd
  rcases hd with rfl | rfl | rfl <;>
    norm_num [pyTrunc, DIFFICULTY_EASY, DIFFICULTY_NORMAL, DIFFICULTY_HARD]

lemma preset_score_base_500 (d : DifficultyPreset) (hd : d ∈ DIFFICULTY_PRESETS) :
    (pyTrunc (500 * d.score_multiplier) : ℚ) = 500 * d.score_multiplier := by
  simp only [DIFFICULTY_PRESETS, List.mem_cons, List.not_mem_nil, or_false] at hd
  rcases hd with rfl | rfl | rfl <;>
    norm_num [pyTrunc, DIFFICULTY_EASY, DIFFICULTY_NORMAL, DIFFICULTY_HARD]

/-! ### Impulse length fact -/

lemma vec_length_impulse (imp : ℝ) (pb pc : ℝ × ℝ) (hne : pb ≠ pc) (himp : 0 ≤ imp) :
    vec_length (bumper_impulse_vec imp pb pc) = imp := by
  have hvne : pb - pc ≠ 0 := sub_ne_zero.mpr hne
  have hsum : 0 < (pb - pc).1 ^ 2 + (pb - pc).2 ^ 2 := by
    rcases Decidable.not_and_iff_or_not.mp (fun hand => hvne (Prod.ext_iff.mpr hand)) with
      hx | hy
    · exact add_pos_of_pos_of_nonneg (pow_two_pos_of_ne_zero hx) (sq_nonneg _)
    · exact add_pos_of_nonneg_of_pos (sq_nonneg _) (pow_two_pos_of_ne_zero hy)
  have hlpos : 0 < vec_length (pb - pc) := Real.sqrt_pos.mpr hsum
  have hlne : vec_length (pb - pc) ≠ 0 := ne_of_gt hlpos
  have hbv : bumper_impulse_vec imp pb pc =
      ((pb - pc).1 / vec_length (pb - pc) * imp,
        (pb - pc).2 / vec_length (pb - pc) * imp) := by
    simp only [bumper_impulse_vec, normalized, if_neg hlne]
  rw [hbv]
  show Real.sqrt (((pb - pc).1 / vec_length (pb - pc) * imp) ^ 2 +
      ((pb - pc).2 / vec_length (pb - pc) * imp) ^ 2) = imp
  have key : ((pb - pc).1 / vec_length (pb - pc) * imp) ^ 2 +
      ((pb - pc).2 / vec_length (pb - pc) * imp) ^ 2 =
      ((pb - pc).1 ^ 2 + (pb - pc).2 ^ 2) * (imp / vec_length (pb - pc)) ^ 2 := by
    ring
  rw [key, Real.sqrt_mul hsum.le, Real.sqrt_sq_eq_abs,
    abs_of_nonneg (div_nonneg himp hlpos.le)]
  have hs : Real.sqrt ((pb - pc).1 ^ 2 + (pb - pc).2 ^ 2) = vec_length (pb - pc) := rfl
  rw [hs]
  field_simp

/-! ### Game-over transition helper lemmas -/

lemma go_other_cases (s t : SysState) (e : Event)
    (hpres : t.gs.game_over = s.gs.game_over)
    (hne : ∀ q : ℚ, e ≠ Event.frame_table q) :
    (s.gs.game_over = false →
      (t.gs.game_over = true ↔ ∃ dt, e = Event.frame_table dt ∧
        (saver_tick dt s.gs).ball_saver_active = false ∧
        s.table.balls.filter off_table ≠ [] ∧ s.gs.balls_remaining = 1)) ∧
    (s.gs.game_over = true → t.gs.game_over = true ∨
      ((e = Event.key_reset ∨ e = Event.key_cycle) ∧
        t.gs = GameState.init (currentPreset t))) := by
  constructor
  · intro hgo
    rw [hpres, hgo]
    constructor
    · intro hcon; exact absurd hcon (by simp)
    · rintro ⟨dt, hdt, -⟩
      exact absurd hdt (hne dt)
  · intro hgo
    left
    rw [hpres]
    exact hgo

lemma go_reset_cases (s t : SysState) (e : Event)
    (hinit : t.gs = GameState.init (currentPreset t))
    (he : e = Event.key_reset ∨ e = Event.key_cycle)
    (hne : ∀ q : ℚ, e ≠ Event.frame_table q) :
    (s.gs.game_over = false →
      (t.gs.game_over = true ↔ ∃ dt, e = Event.frame_table dt ∧
        (saver_tick dt s.gs).ball_saver_active = false ∧
        s.table.balls.filter off_table ≠ [] ∧ s.gs.balls_remaining = 1)) ∧
    (s.gs.game_over = true → t.gs.game_over = true ∨
      ((e = Event.key_reset ∨ e = Event.key_cycle) ∧
        t.gs = GameState.init (currentPreset t))) := by
  constructor
  · intro hgo
    have hfalse : t.gs.game_over = false := by rw [hinit]; rfl
    rw [hfalse]
    constructor
    · intro hcon; exact absurd hcon (by simp)
    · rintro ⟨dt, hdt, -⟩
      exact absurd hdt (hne dt)
  · intro hgo
    right
    exact ⟨he, hinit⟩

/-! ### Claim theorems -/

lemma mem_normal : DIFFICULTY_NORMAL ∈ DIFFICULTY_PRESETS := by
  simp [DIFFICULTY_PRESETS]

/-- C9: while plunger_charging is true, a frame advances the charge by
plunger_charge_rate * dt * plunger_direction; at or above plunger_max_power
the power clamps to the maximum and the direction flips to -1; at or below 0
it clamps to 0 and the direction flips to +1; hence after every such frame
plunger_power lies in [0, plunger_max_power]. -/
theorem plunger_charge_spec (d : DifficultyPreset) (hd : d ∈ DIFFICULTY_PRESETS)
    (dt : ℚ) (gs : GameState) (hc : gs.plunger_charging = true) :
    ((d.plunger_max_power ≤
        gs.plunger_power + d.plunger_charge_rate * dt * gs.plunger_direction →
        (plunger_frame d dt gs).plunger_power = d.plunger_max_power ∧
        (plunger_frame d dt gs).plunger_direction = -1) ∧
      (gs.plunger_power + d.plunger_charge_rate * dt * gs.plunger_direction <
          d.plunger_max_power →
        gs.plunger_power + d.plunger_charge_rate * dt * gs.plunger_direction ≤ 0 →
        (plunger_frame d dt gs).plunger_power = 0 ∧
        (plunger_frame d dt gs).plunger_direction = 1) ∧
      (0 < gs.plunger_power + d.plunger_charge_rate * dt * gs.plunger_direction →
        gs.plunger_power + d.plunger_charge_rate * dt * gs.plunger_direction <
          d.plunger_max_power →
        (plunger_frame d dt gs).plunger_power =
          gs.plunger_power + d.plunger_charge_rate * dt * gs.plunger_direction ∧
        (plunger_frame d dt gs).plunger_direction = gs.plunger_direction)) ∧
    (0 ≤ (plunger_frame d dt gs).plunger_power ∧
      (plunger_frame d dt gs).plunger_power ≤ d.plunger_max_power) := by
  have hmax := preset_max_power_pos d hd
  refine ⟨⟨?_, ?_, ?_⟩, ?_⟩
  · intro h1
    simp [plunger_frame, hc, h1]
  · intro h1 h2
    simp [plunger_frame, hc, not_le.mpr h1, h2]
  · intro h1 h2
    simp [plunger_frame, hc, not_le.mpr h2, not_le.mpr h1]
  · by_cases ha : d.plunger_max_power ≤
        gs.plunger_power + d.plunger_charge_rate * dt * gs.plunger_direction
    · simp [plunger_frame, hc, ha]
      exact hmax.le
    · by_cases hb : gs.plunger_power + d.plunger_charge_rate * dt * gs.plunger_direction ≤ 0
      · simp [plunger_frame, hc, ha, hb]
        exact hmax.le
      · simp [plunger_frame, hc, ha, hb]
        constructor <;> linarith [not_le.mp ha, not_le.mp hb]

/-- C9 witness: a concrete charging frame at NORMAL difficulty. -/
theorem plunger_charge_spec_witness :
    0 ≤ (plunger_frame DIFFICULTY_NORMAL 1
        { GameState.init DIFFICULTY_NORMAL with plunger_charging := true }).plunger_power ∧
    (plunger_frame DIFFICULTY_NORMAL 1
        { GameState.init DIFFICULTY_NORMAL with plunger_charging := true }).plunger_power ≤
      DIFFICULTY_NORMAL.plunger_max_power :=
  (plunger_charge_spec DIFFICULTY_NORMAL mem_normal 1
    { GameState.init DIFFICULTY_NORMAL with plunger_charging := true } rfl).2

/-- C10: the target-hit handler adds 500 * score_multiplier scaled by the
current combo multiplier to the score and leaves combo_multiplier,
last_hit_time, balls_remaining, ball_in_play, ball_saver_active,
ball_saver_timer and game_over unchanged. -/
theorem target_hit_spec (d : DifficultyPreset) (hd : d ∈ DIFFICULTY_PRESETS)
    (gs : GameState) :
    ((on_target_hit d gs).score : ℚ) =
      (gs.score : ℚ) + 500 * d.score_multiplier * (gs.combo_multiplier : ℚ) ∧
    (on_target_hit d gs).combo_multiplier = gs.combo_multiplier ∧
    (on_target_hit d gs).last_hit_time = gs.last_hit_time ∧
    (on_target_hit d gs).balls_remaining = gs.balls_remaining ∧
    (on_target_hit d gs).ball_in_play = gs.ball_in_play ∧
    (on_target_hit d gs).ball_saver_active = gs.ball_saver_active ∧
    (on_target_hit d gs).ball_saver_timer = gs.ball_saver_timer ∧
    (on_target_hit d gs).game_over = gs.game_over := by
  refine ⟨?_, by simp [on_target_hit], by simp [on_target_hit], by simp [on_target_hit],
    by simp [on_target_hit], by simp [on_target_hit], by simp [on_target_hit],
    by simp [on_target_hit]⟩
  simp only [on_target_hit]
  push_cast
  rw [preset_score_base_500 d hd]

/-- C10 witness: a concrete target hit at NORMAL difficulty. -/
theorem target_hit_spec_witness :
    ((on_target_hit DIFFICULTY_NORMAL (GameState.init DIFFICULTY_NORMAL)).score : ℚ) =
      ((GameState.init DIFFICULTY_NORMAL).score : ℚ) +
        500 * DIFFICULTY_NORMAL.score_multiplier *
          ((GameState.init DIFFICULTY_NORMAL).combo_multiplier : ℚ) :=
  (target_hit_spec DIFFICULTY_NORMAL mem_normal (GameState.init DIFFICULTY_NORMAL)).1

/-- C6: launch_ball sets the plunger body and the most recent live ball to
vertical velocity -power * 2 exactly when the power is positive and that
ball sits in the plunger-lane rectangle (505 < x < 565, y > 600); in every
other situation (no live ball, power ≤ 0, or lane test false) the call
changes nothing and raises no error. -/
theorem launch_ball_spec (power : ℚ) (st : TableState) :
    (∀ b, st.balls.getLast? = some b → 0 < power → is_ball_in_plunger_lane b = true →
      (launch_ball power st).plunger_vel = (0, -power * 2) ∧
      ∃ b2, (launch_ball power st).balls.getLast? = some b2 ∧
        b2.vel = (0, -power * 2) ∧ b2.pos = b.pos) ∧
    (st.balls = [] → launch_ball power st = st) ∧
    (power ≤ 0 → launch_ball power st = st) ∧
    (∀ b, st.balls.getLast? = some b → is_ball_in_plunger_lane b = false →
      launch_ball power st = st) := by
  refine ⟨?_, ?_, ?_, ?_⟩
  · intro b hb hp hl
    simp only [launch_ball, hb]
    rw [if_pos ⟨hp, hl⟩]
    refine ⟨rfl, { b with vel := (0, -power * 2) }, ?_, rfl, rfl⟩
    simp
  · intro h
    exact launch_ball_of_empty power st h
  · intro hp
    unfold launch_ball
    cases hb : st.balls.getLast? with
    | none => rfl
    | some b =>
      dsimp only
      rw [if_neg]
      rintro ⟨hp2, -⟩
      linarith
  · intro b hb hl
    simp only [launch_ball, hb]
    rw [if_neg]
    rintro ⟨-, hcon⟩
    rw [hl] at hcon
    exact Bool.noConfusion hcon

/-- C6 witness: a concrete launch of a ball sitting in the plunger lane, and
a concrete no-op with non-positive power. -/
theorem launch_ball_spec_witness :
    ((launch_ball 10 (⟨GameState.init DIFFICULTY_NORMAL, [⟨(535, 710), (0, 0)⟩],
          (535, 730), (0, 0)⟩ : TableState)).plunger_vel = (0, -10 * 2) ∧
      ∃ b2, (launch_ball 10 (⟨GameState.init DIFFICULTY_NORMAL, [⟨(535, 710), (0, 0)⟩],
          (535, 730), (0, 0)⟩ : TableState)).balls.getLast? = some b2 ∧
        b2.vel = (0, -10 * 2) ∧ b2.pos = (⟨(535, 710), (0, 0)⟩ : Ball).pos) ∧
    launch_ball 0 (⟨GameState.init DIFFICULTY_NORMAL, [⟨(535, 710), (0, 0)⟩],
        (535, 730), (0, 0)⟩ : TableState) =
      (⟨GameState.init DIFFICULTY_NORMAL, [⟨(535, 710), (0, 0)⟩],
        (535, 730), (0, 0)⟩ : TableState) :=
  ⟨(launch_ball_spec 10 _).1 ⟨(535, 710), (0, 0)⟩ rfl (by decide) (by decide),
    (launch_ball_spec 0 _).2.2.1 (by decide)⟩

/-- C7: on a drain contact with a single live ball, if the ball saver is
active the ball is teleported to the launch point with zero velocity and no
drain is counted then or on the next update; if the saver is inactive the
ball is teleported to an off-table position satisfying the removal test, so
the next update removes it, decrements balls_remaining and clears
ball_in_play. -/
theorem drain_spec (st : TableState) (b : Ball) (dt : ℚ) (hb : st.balls = [b]) :
    (st.gs.ball_saver_active = true →
      (on_drain st 0).balls = [{ b with pos := (535, 710), vel := (0, 0) }] ∧
      (on_drain st 0).gs = st.gs ∧
      (table_update dt (on_drain st 0)).gs.balls_remaining = st.gs.balls_remaining ∧
      (table_update dt (on_drain st 0)).gs.ball_in_play = st.gs.ball_in_play ∧
      (table_update dt (on_drain st 0)).gs.game_over = st.gs.game_over) ∧
    (st.gs.ball_saver_active = false →
      (∃ b2, (on_drain st 0).balls = [b2] ∧ b2.pos = (-100, -100) ∧
        off_table b2 = true) ∧
      (table_update dt (on_drain st 0)).balls = [] ∧
      (table_update dt (on_drain st 0)).gs.balls_remaining = st.gs.balls_remaining - 1 ∧
      (table_update dt (on_drain st 0)).gs.ball_in_play = false) := by
  constructor
  · intro hsav
    have hball : on_drain st 0 =
        { st with balls := [{ b with pos := (535, 710), vel := (0, 0) }] } := by
      simp [on_drain, hb, on_drain_ball, hsav]
    have hoff :
        off_table (Ball.mk ((535 : ℚ), (710 : ℚ)) (0 : ℚ × ℚ)) = false := by
      decide
    rw [hball]
    refine ⟨rfl, rfl, ?_, ?_, ?_⟩ <;>
      simp [table_update, List.filter_cons, hoff, saver_tick_remaining,
        saver_tick_in_play, saver_tick_game_over]
  · intro hsav
    have hball : on_drain st 0 =
        { st with balls := [{ b with pos := (-100, -100) }] } := by
      simp [on_drain, hb, on_drain_ball, hsav]
    have hoff : off_table { b with pos := ((-100 : ℚ), (-100 : ℚ)) } = true := by
      simp [off_table]
      norm_num
    rw [hball]
    refine ⟨⟨{ b with pos := (-100, -100) }, rfl, rfl, hoff⟩, ?_, ?_, ?_⟩ <;>
      simp [table_update, List.filter_cons, hoff,
        saver_tick_of_inactive dt _ hsav, drain_step_of_no_saver _ hsav]

/-- C7 witness: a concrete saved drain and a concrete counted drain. -/
theorem drain_spec_witness :
    ((table_update 1 (on_drain (⟨{ GameState.init DIFFICULTY_NORMAL with
          ball_saver_active := true }, [⟨(275, 779), (0, 50)⟩],
          (535, 730), (0, 0)⟩ : TableState) 0)).gs.balls_remaining =
      ({ GameState.init DIFFICULTY_NORMAL with
          ball_saver_active := true } : GameState).balls_remaining) ∧
    (table_update 1 (on_drain (⟨GameState.init DIFFICULTY_NORMAL,
        [⟨(275, 779), (0, 50)⟩], (535, 730), (0, 0)⟩ : TableState) 0)).gs.balls_remaining =
      (GameState.init DIFFICULTY_NORMAL).balls_remaining - 1 :=
  ⟨((drain_spec _ ⟨(275, 779), (0, 50)⟩ 1 rfl).1 rfl).2.2.1,
    ((drain_spec _ ⟨(275, 779), (0, 50)⟩ 1 rfl).2 rfl).2.2.1⟩

/-- C1: on a bumper hit at current time tm, a hit within 2 seconds of
last_hit_time increments the combo multiplier by one capped at 5, a later
hit resets it to 1; last_hit_time becomes tm; the score grows by
100 * score_multiplier times the post-update combo multiplier; the impulse
applied to the ball has magnitude bumper_impulse and points away from the
bumper centre; and in every reachable state the combo multiplier lies in
[1, 5]. -/
theorem bumper_hit_spec (d : DifficultyPreset) (hd : d ∈ DIFFICULTY_PRESETS)
    (tm : ℚ) (gs : GameState) (pb pc : ℝ × ℝ) (hne : pb ≠ pc)
    (s : SysState) (hR : Reach s) :
    ((tm - gs.last_hit_time < 2 →
        (on_bumper_hit d tm gs).combo_multiplier = min (gs.combo_multiplier + 1) 5) ∧
      (2 ≤ tm - gs.last_hit_time → (on_bumper_hit d tm gs).combo_multiplier = 1) ∧
      (on_bumper_hit d tm gs).last_hit_time = tm ∧
      ((on_bumper_hit d tm gs).score : ℚ) =
        (gs.score : ℚ) + 100 * d.score_multiplier *
          ((on_bumper_hit d tm gs).combo_multiplier : ℚ)) ∧
    vec_length (bumper_impulse_vec (d.bumper_impulse : ℝ) pb pc) =
      (d.bumper_impulse : ℝ) ∧
    (1 ≤ s.gs.combo_multiplier ∧ s.gs.combo_multiplier ≤ 5) := by
  have hcombo := on_bumper_hit_combo d tm gs
  have hscore := on_bumper_hit_score d tm gs
  refine ⟨⟨?_, ?_, by simp [on_bumper_hit], ?_⟩, ?_, ?_⟩
  · intro h
    rw [hcombo, if_pos h]
  · intro h
    rw [hcombo, if_neg (not_lt.mpr h)]
  · rw [hscore]
    push_cast
    rw [preset_score_base_100 d hd]
  · exact vec_length_impulse _ pb pc hne
      (by exact_mod_cast preset_bumper_impulse_nonneg d hd)
  · obtain ⟨h1, h2, -⟩ := reach_inv hR
    exact ⟨h1, h2⟩

/-- C1 witness: a concrete bumper hit at NORMAL difficulty, a concrete
ball/bumper position pair, and the initial session state. -/
theorem bumper_hit_spec_witness :
    ((1 - (GameState.init DIFFICULTY_NORMAL).last_hit_time < 2 →
        (on_bumper_hit DIFFICULTY_NORMAL 1
            (GameState.init DIFFICULTY_NORMAL)).combo_multiplier =
          min ((GameState.init DIFFICULTY_NORMAL).combo_multiplier + 1) 5) ∧
      (2 ≤ 1 - (GameState.init DIFFICULTY_NORMAL).last_hit_time →
        (on_bumper_hit DIFFICULTY_NORMAL 1
            (GameState.init DIFFICULTY_NORMAL)).combo_multiplier = 1) ∧
      (on_bumper_hit DIFFICULTY_NORMAL 1
          (GameState.init DIFFICULTY_NORMAL)).last_hit_time = 1 ∧
      ((on_bumper_hit DIFFICULTY_NORMAL 1
          (GameState.init DIFFICULTY_NORMAL)).score : ℚ) =
        ((GameState.init DIFFICULTY_NORMAL).score : ℚ) +
          100 * DIFFICULTY_NORMAL.score_multiplier *
            ((on_bumper_hit DIFFICULTY_NORMAL 1
                (GameState.init DIFFICULTY_NORMAL)).combo_multiplier : ℚ)) ∧
    vec_length (bumper_impulse_vec (DIFFICULTY_NORMAL.bumper_impulse : ℝ)
        ((1 : ℝ), (0 : ℝ)) ((0 : ℝ), (0 : ℝ))) =
      (DIFFICULTY_NORMAL.bumper_impulse : ℝ) ∧
    (1 ≤ SysState.start.gs.combo_multiplier ∧
      SysState.start.gs.combo_multiplier ≤ 5) :=
  bumper_hit_spec DIFFICULTY_NORMAL mem_normal 1 (GameState.init DIFFICULTY_NORMAL)
    ((1 : ℝ), (0 : ℝ)) ((0 : ℝ), (0 : ℝ)) (by simp) SysState.start Reach.start

/-- C2: create_ball always sets ball_in_play, turns the ball saver on with
the preset duration on the timer, and any following run of table updates
whose dt values sum to at least that duration ends with the saver off. -/
theorem ball_saver_roundtrip (d : DifficultyPreset) (hd : d ∈ DIFFICULTY_PRESETS)
    (st : TableState) (position : Option (ℚ × ℚ)) (dts : List ℚ)
    (hsum : d.ball_saver_duration ≤ dts.sum) :
    (create_ball d st position).gs.ball_in_play = true ∧
    (create_ball d st position).gs.ball_saver_active = true ∧
    (create_ball d st position).gs.ball_saver_timer = d.ball_saver_duration ∧
    (dts.foldl (fun acc dt => table_update dt acc)
        (create_ball d st position)).gs.ball_saver_active = false := by
  refine ⟨rfl, rfl, rfl, ?_⟩
  have hdur := preset_duration_pos d hd
  rcases updates_saver_window dts (create_ball d st position) rfl
      (by exact hdur) with hf | ⟨-, hgt⟩
  · exact hf
  · have htimer : (create_ball d st position).gs.ball_saver_timer
        = d.ball_saver_duration := rfl
    rw [htimer] at hgt
    linarith

/-- C2 witness: a concrete spawn at NORMAL difficulty followed by one update
consuming the whole saver window. -/
theorem ball_saver_roundtrip_witness :
    (create_ball DIFFICULTY_NORMAL (initTable DIFFICULTY_NORMAL)
        none).gs.ball_in_play = true ∧
    (create_ball DIFFICULTY_NORMAL (initTable DIFFICULTY_NORMAL)
        none).gs.ball_saver_active = true ∧
    (create_ball DIFFICULTY_NORMAL (initTable DIFFICULTY_NORMAL)
        none).gs.ball_saver_timer = DIFFICULTY_NORMAL.ball_saver_duration ∧
    ([DIFFICULTY_NORMAL.ball_saver_duration].foldl (fun acc dt => table_update dt acc)
        (create_ball DIFFICULTY_NORMAL (initTable DIFFICULTY_NORMAL)
          none)).gs.ball_saver_active = false :=
  ball_saver_roundtrip DIFFICULTY_NORMAL mem_normal (initTable DIFFICULTY_NORMAL)
    none [DIFFICULTY_NORMAL.ball_saver_duration] (by simp)

/-- C5 counterexample: in the frame order of the source, Table.update runs
before the physics sub-steps, so it is false that every sub-step of a frame
precedes the lifecycle bookkeeping of that frame. -/
theorem frame_ordering_claim_false :
    ¬ (∀ i, i < frame_phases.length → ∀ j, j < frame_phases.length →
        is_substep (phase_at i) = true → phase_at j = Phase.table_lifecycle → i < j) := by
  decide

/-- C5 as amended: actuator commands (input-phase flips and the plunger
charge advance) precede every physics sub-step; the frame delta is stepped
in exactly PHYSICS_SUBSTEPS equal sub-increments summing to dt; and the
lifecycle bookkeeping of Table.update precedes (rather than follows) every
sub-step of the frame. -/
theorem frame_ordering_amended (dt : ℚ) :
    (∀ i, i < frame_phases.length → ∀ j, j < frame_phases.length →
      (phase_at i = Phase.input ∨ phase_at i = Phase.actuator_charge) →
      is_substep (phase_at j) = true → i < j) ∧
    (substep_dts dt).length = PHYSICS_SUBSTEPS ∧
    (∀ q ∈ substep_dts dt, q = dt / (PHYSICS_SUBSTEPS : ℚ)) ∧
    (substep_dts dt).sum = dt ∧
    (∀ i, i < frame_phases.length → ∀ j, j < frame_phases.length →
      phase_at i = Phase.table_lifecycle → is_substep (phase_at j) = true → i < j) := by
  refine ⟨by decide, by simp [substep_dts], ?_, ?_, by decide⟩
  · intro q hq
    exact List.eq_of_mem_replicate hq
  · rw [substep_dts, List.sum_replicate, nsmul_eq_mul]
    rw [PHYSICS_SUBSTEPS]
    push_cast
    ring

/-- C5 amended witness: the sub-increment facts at the concrete frame delta
1/60 used by the game loop. -/
theorem frame_ordering_amended_witness :
    (substep_dts (1 / 60)).length = PHYSICS_SUBSTEPS ∧
    (substep_dts (1 / 60)).sum = 1 / 60 :=
  ⟨(frame_ordering_amended (1 / 60)).2.1, (frame_ordering_amended (1 / 60)).2.2.2.1⟩

/-- C8: over every step of the event loop the score is non-decreasing except
for the explicit reset operations (reset key, difficulty rebuild), which set
it back to 0; and in every reachable state the score is non-negative. -/
theorem score_monotone_spec (s : SysState) (e : Event) (t : SysState)
    (hR : Reach s) (hS : Step s e t) :
    0 ≤ s.gs.score ∧
    (s.gs.score ≤ t.gs.score ∨
      ((e = Event.key_reset ∨ e = Event.key_cycle) ∧ t.gs.score = 0)) := by
  obtain ⟨h1, h2, h3, h4, h5, h6, h7, h8⟩ := reach_inv hR
  simp only [SysState.gs, currentPreset_def] at h1 h3
  refine ⟨h3, ?_⟩
  cases hS with
  | space_down =>
    left
    simp only [SysState.gs]
    exact le_of_eq ((key_space_spec (currentPreset s) s.table).1.1).symm
  | space_up =>
    left
    simp only [SysState.gs]
    exact le_of_eq (release_plunger_fields s.table).1.symm
  | flip_left => exact Or.inl (le_refl _)
  | flip_right => exact Or.inl (le_refl _)
  | reset_key => exact Or.inr ⟨Or.inl rfl, rfl⟩
  | cycle h => exact Or.inr ⟨Or.inr rfl, rfl⟩
  | frame_charge dt h =>
    left
    simp only [SysState.gs]
    exact le_of_eq (plunger_frame_fields (currentPreset s) dt s.table.gs).1.symm
  | frame_table dt h =>
    left
    simp only [SysState.gs]
    rcases table_update_spec dt s.table h7 with ⟨hgs, -, -⟩ | ⟨x, hx, hoff, hgs, -⟩
    · rw [hgs, saver_tick_score]
    · rw [hgs, drain_step_score, saver_tick_score]
  | physics f ppos pvel h => exact Or.inl (le_refl _)
  | hit_bumper tm i v b hb h =>
    left
    simp only [SysState.gs, currentPreset_def]
    rw [on_bumper_hit_score (presetAt s.idx) tm s.table.gs]
    have hc1 : 1 ≤ (on_bumper_hit (presetAt s.idx) tm s.table.gs).combo_multiplier := by
      rw [on_bumper_hit_combo]
      split_ifs <;> omega
    have := mul_nonneg (bumper_base_nonneg s.idx) (le_trans zero_le_one hc1)
    omega
  | hit_target h =>
    left
    simp only [SysState.gs, currentPreset_def]
    rw [on_target_hit_eq]
    dsimp only
    have := mul_nonneg (target_base_nonneg s.idx) (le_trans zero_le_one h1)
    simp only [currentPreset_def] at this
    omega
  | hit_drain i h =>
    left
    simp only [SysState.gs]
    rw [on_drain_gs]

/-- C8 witness: a concrete target-hit step from the initial session state. -/
theorem score_monotone_spec_witness :
    0 ≤ SysState.start.gs.score ∧
    (SysState.start.gs.score ≤
        (SysState.mk SysState.start.idx { SysState.start.table with
          gs := on_target_hit (currentPreset SysState.start)
            SysState.start.table.gs }).gs.score ∨
      ((Event.hit_target = Event.key_reset ∨ Event.hit_target = Event.key_cycle) ∧
        (SysState.mk SysState.start.idx { SysState.start.table with
          gs := on_target_hit (currentPreset SysState.start)
            SysState.start.table.gs }).gs.score = 0)) :=
  score_monotone_spec SysState.start Event.hit_target _ Reach.start
    (Step.hit_target SysState.start rfl)

/-- C4: in every reachable state balls_remaining lies in
[0, starting_balls]; during a table update with the (post-tick) ball saver
inactive the remaining count drops by exactly the number of off-table balls
removed, which is at most one; during a table update with the saver active
it does not change. -/
theorem balls_remaining_spec (s : SysState) (dt : ℚ) (hR : Reach s) :
    (0 ≤ s.gs.balls_remaining ∧
      s.gs.balls_remaining ≤ (currentPreset s).starting_balls) ∧
    ((saver_tick dt s.gs).ball_saver_active = false →
      (table_update dt s.table).gs.balls_remaining =
        s.gs.balls_remaining - ((s.table.balls.filter off_table).length : ℤ) ∧
      ((s.table.balls.filter off_table).length : ℤ) ≤ 1) ∧
    ((saver_tick dt s.gs).ball_saver_active = true →
      (table_update dt s.table).gs.balls_remaining = s.gs.balls_remaining) := by
  obtain ⟨h1, h2, h3, h4, h5, h6, h7, h8⟩ := reach_inv hR
  simp only [SysState.gs, currentPreset_def] at h4 h5 ⊢
  refine ⟨⟨h4, h5⟩, ?_, ?_⟩
  · intro hsav
    rcases table_update_spec dt s.table h7 with ⟨hgs, -, hfil⟩ | ⟨x, hx, hoff, hgs, -⟩
    · rw [hgs, saver_tick_remaining, hfil]
      simp
    · have hfil : s.table.balls.filter off_table = [x] := by
        rw [hx]
        simp [List.filter_cons, hoff]
      rw [hgs, drain_step_of_no_saver _ hsav]
      simp only [saver_tick_remaining, hfil, List.length_singleton]
      exact ⟨rfl, by omega⟩
  · intro hsav
    rcases table_update_spec dt s.table h7 with ⟨hgs, -, -⟩ | ⟨x, hx, hoff, hgs, -⟩
    · rw [hgs, saver_tick_remaining]
    · rw [hgs, drain_step_of_saver _ hsav, saver_tick_remaining]

/-- C4 witness: the bounds and both update branches at the initial state. -/
theorem balls_remaining_spec_witness :
    (0 ≤ SysState.start.gs.balls_remaining ∧
      SysState.start.gs.balls_remaining ≤ (currentPreset SysState.start).starting_balls) ∧
    ((saver_tick 1 SysState.start.gs).ball_saver_active = false →
      (table_update 1 SysState.start.table).gs.balls_remaining =
        SysState.start.gs.balls_remaining -
          ((SysState.start.table.balls.filter off_table).length : ℤ) ∧
      ((SysState.start.table.balls.filter off_table).length : ℤ) ≤ 1) ∧
    ((saver_tick 1 SysState.start.gs).ball_saver_active = true →
      (table_update 1 SysState.start.table).gs.balls_remaining =
        SysState.start.gs.balls_remaining) :=
  balls_remaining_spec SysState.start 1 Reach.start

/-- C3: from a reachable state, a step turns game_over from false to true
exactly when it is a table update whose post-tick ball saver is inactive,
with some ball off-table, while balls_remaining is 1; once game_over is true
every step keeps it true except the explicit reset operations (reset key,
difficulty rebuild), which rebuild GameState afresh from the current preset;
and GameState.reset rebuilds the initial state from the stored difficulty
unless an override is given. -/
theorem game_over_spec (s : SysState) (e : Event) (t : SysState)
    (hR : Reach s) (hS : Step s e t) :
    (s.gs.game_over = false →
      (t.gs.game_over = true ↔ ∃ dt, e = Event.frame_table dt ∧
        (saver_tick dt s.gs).ball_saver_active = false ∧
        s.table.balls.filter off_table ≠ [] ∧ s.gs.balls_remaining = 1)) ∧
    (s.gs.game_over = true → t.gs.game_over = true ∨
      ((e = Event.key_reset ∨ e = Event.key_cycle) ∧
        t.gs = GameState.init (currentPreset t))) ∧
    (∀ gs : GameState, GameState.reset gs none = GameState.init gs.difficulty) ∧
    (∀ (gs : GameState) (p : DifficultyPreset),
      GameState.reset gs (some p) = GameState.init p) := by
  obtain ⟨h1, h2, h3, h4, h5, h6, h7, h8⟩ := reach_inv hR
  simp only [SysState.gs, currentPreset_def] at h4 h6
  have hre : ∀ gs : GameState, GameState.reset gs none = GameState.init gs.difficulty :=
    fun gs => rfl
  have hre2 : ∀ (gs : GameState) (p : DifficultyPreset),
      GameState.reset gs (some p) = GameState.init p := fun gs p => rfl
  cases hS with
  | space_down =>
    have hgo := (key_space_spec (currentPreset s) s.table).1.2.2.2.1
    obtain ⟨ha, hb⟩ := go_other_cases s
      ⟨s.idx, key_space (currentPreset s) s.table⟩ Event.key_space_down hgo (by simp)
    exact ⟨ha, hb, hre, hre2⟩
  | space_up =>
    have hgo := (release_plunger_fields s.table).2.2.2.1
    obtain ⟨ha, hb⟩ := go_other_cases s
      ⟨s.idx, release_plunger s.table⟩ Event.key_space_up hgo (by simp)
    exact ⟨ha, hb, hre, hre2⟩
  | flip_left =>
    obtain ⟨ha, hb⟩ := go_other_cases s s Event.key_flip_left rfl (by simp)
    exact ⟨ha, hb, hre, hre2⟩
  | flip_right =>
    obtain ⟨ha, hb⟩ := go_other_cases s s Event.key_flip_right rfl (by simp)
    exact ⟨ha, hb, hre, hre2⟩
  | reset_key =>
    obtain ⟨ha, hb⟩ := go_reset_cases s
      ⟨s.idx, game_reset (currentPreset s) s.table⟩ Event.key_reset rfl
      (Or.inl rfl) (by simp)
    exact ⟨ha, hb, hre, hre2⟩
  | cycle h =>
    obtain ⟨ha, hb⟩ := go_reset_cases s
      ⟨cycleIndex s.idx, initTable (presetAt (cycleIndex s.idx))⟩ Event.key_cycle rfl
      (Or.inr rfl) (by simp)
    exact ⟨ha, hb, hre, hre2⟩
  | frame_charge dt h =>
    have hgo := (plunger_frame_fields (currentPreset s) dt s.table.gs).2.2.2.1
    obtain ⟨ha, hb⟩ := go_other_cases s
      ⟨s.idx, { s.table with gs := plunger_frame (currentPreset s) dt s.table.gs }⟩
      (Event.frame_charge dt) hgo (by simp)
    exact ⟨ha, hb, hre, hre2⟩
  | physics f ppos pvel h =>
    obtain ⟨ha, hb⟩ := go_other_cases s
      ⟨s.idx, { s.table with balls := s.table.balls.map f, plunger_pos := ppos, plunger_vel := pvel }⟩
      Event.physics rfl (by simp)
    exact ⟨ha, hb, hre, hre2⟩
  | hit_bumper tm i v b hb h =>
    have hgo := (on_bumper_hit_fields (currentPreset s) tm s.table.gs).2.1
    obtain ⟨ha, hb2⟩ := go_other_cases s
      ⟨s.idx, { s.table with gs := on_bumper_hit (currentPreset s) tm s.table.gs, balls := s.table.balls.set i { b with vel := v } }⟩
      (Event.hit_bumper tm i) hgo (by simp)
    exact ⟨ha, hb2, hre, hre2⟩
  | hit_target h =>
    have hgo : (on_target_hit (currentPreset s) s.table.gs).game_over
        = s.table.gs.game_over := by
      simp [on_target_hit]
    obtain ⟨ha, hb⟩ := go_other_cases s
      ⟨s.idx, { s.table with gs := on_target_hit (currentPreset s) s.table.gs }⟩
      Event.hit_target hgo (by simp)
    exact ⟨ha, hb, hre, hre2⟩
  | hit_drain i h =>
    have hgo : (on_drain s.table i).gs.game_over = s.table.gs.game_over := by
      rw [on_drain_gs]
    obtain ⟨ha, hb⟩ := go_other_cases s
      ⟨s.idx, on_drain s.table i⟩ (Event.hit_drain i) hgo (by simp)
    exact ⟨ha, hb, hre, hre2⟩
  | frame_table dt h =>
    simp only [SysState.gs] at h
    refine ⟨?_, ?_, hre, hre2⟩
    · intro hgo
      simp only [SysState.gs]
      rcases table_update_spec dt s.table h7 with ⟨hgs, -, hfil⟩ | ⟨x, hx, hoff, hgs, -⟩
      · have hgo2 : (table_update dt s.table).gs.game_over = false := by
          rw [hgs, saver_tick_game_over]
          exact h
        rw [hgo2]
        constructor
        · intro hcon
          exact absurd hcon (by simp)
        · rintro ⟨dt2, hdt2, -, hfil2, -⟩
          exact absurd hfil hfil2
      · have hfil : s.table.balls.filter off_table = [x] := by
          rw [hx]
          simp [List.filter_cons, hoff]
        have hrem1 : 1 ≤ s.table.gs.balls_remaining := by
          by_contra hcon
          have hle : s.table.gs.balls_remaining ≤ 0 := by omega
          have hg := h6 hle
          rw [h] at hg
          exact Bool.noConfusion hg
        cases hsav : (saver_tick dt s.table.gs).ball_saver_active with
        | true =>
          have hgo2 : (table_update dt s.table).gs.game_over = false := by
            rw [hgs, drain_step_of_saver _ hsav, saver_tick_game_over]
            exact h
          rw [hgo2]
          constructor
          · intro hcon
            exact absurd hcon (by simp)
          · rintro ⟨dt2, hdt2, hsav2, -, -⟩
            obtain rfl : dt2 = dt := by
              injection hdt2 with hq
              exact hq.symm
            exact Bool.noConfusion (hsav.symm.trans hsav2)
        | false =>
          have hgoeq : (table_update dt s.table).gs.game_over =
              (if s.table.gs.balls_remaining - 1 ≤ 0 then true
                else s.table.gs.game_over) := by
            rw [hgs, drain_step_of_no_saver _ hsav]
            dsimp only
            rw [saver_tick_remaining, saver_tick_game_over]
          rw [hgoeq]
          constructor
          · intro hcon
            have hle : s.table.gs.balls_remaining - 1 ≤ 0 := by
              by_contra hno
              rw [if_neg hno] at hcon
              rw [hcon] at h
              exact Bool.noConfusion h
            refine ⟨dt, rfl, hsav, ?_, ?_⟩
            · rw [hfil]
              simp
            · omega
          · rintro ⟨dt2, hdt2, -, -, hrem⟩
            have hc : s.table.gs.balls_remaining - 1 ≤ 0 := by omega
            rw [if_pos hc]
    · intro hgo2
      simp only [SysState.gs] at hgo2
      rw [h] at hgo2
      exact Bool.noConfusion hgo2

/-- C3 witness: a concrete flip step from the initial state, and the two
reset equations at a concrete game state. -/
theorem game_over_spec_witness :
    (SysState.start.gs.game_over = false →
      (SysState.start.gs.game_over = true ↔ ∃ dt,
        Event.key_flip_left = Event.frame_table dt ∧
        (saver_tick dt SysState.start.gs).ball_saver_active = false ∧
        SysState.start.table.balls.filter off_table ≠ [] ∧
        SysState.start.gs.balls_remaining = 1)) ∧
    (SysState.start.gs.game_over = true →
      SysState.start.gs.game_over = true ∨
      ((Event.key_flip_left = Event.key_reset ∨
          Event.key_flip_left = Event.key_cycle) ∧
        SysState.start.gs = GameState.init (currentPreset SysState.start))) ∧
    (∀ gs : GameState, GameState.reset gs none = GameState.init gs.difficulty) ∧
    (∀ (gs : GameState) (p : DifficultyPreset),
      GameState.reset gs (some p) = GameState.init p) :=
  game_over_spec SysState.start Event.key_flip_left SysState.start Reach.start
    (Step.flip_left SysState.start)

end Pinball
